import Mathlib

/-!
# Verification of the AKEN reporting service core query engine

A shallow embedding, in Lean 4, of the filter parser, field validation,
query composer, merchant summary, error sanitisation and retry harness of
the transaction reporting service, together with theorems settling the
specification claims about them.

Strings from the Go source are modelled as `List Char`; Go's `int`/`int64`
are modelled as `Int` (the values involved are far from overflow); Go's
`time.Time` instants are modelled as integer nanoseconds since the Unix
epoch; fallible Go functions returning `error` are modelled with `Except
String`.
-/

namespace Aken

/-! ## Go string primitives

Models of the Go standard-library string helpers the service uses
(`strings.Split`, `strings.TrimSpace`, `strings.Trim(s, "()")`,
`strings.Join`, `strings.HasPrefix`/`HasSuffix`, `strings.Contains`,
`strings.ToLower`).  All operate on `List Char`. -/

abbrev Chars := List Char

/-- Does `s` start with `pre`?  (Go `strings.HasPrefix`.) -/
def startsWithL : Chars → Chars → Bool
  | _, [] => true
  | [], _ :: _ => false
  | c :: cs, p :: ps => c == p && startsWithL cs ps

/-- Does `s` end with `suf`?  (Go `strings.HasSuffix`.) -/
def endsWithL (s suf : Chars) : Bool :=
  startsWithL s.reverse suf.reverse

/-- Prepend a character onto the first piece of a split result. -/
def consHead (c : Char) : List Chars → List Chars
  | [] => [[c]]
  | h :: t => (c :: h) :: t

/-- Go `strings.Split(input, d :: ds)` for a non-empty separator: split on
every occurrence, keeping empty pieces. -/
def goSplit (d : Char) (ds : Chars) : Chars → List Chars
  | [] => [[]]
  | c :: rest =>
    if startsWithL (c :: rest) (d :: ds) then
      [] :: goSplit d ds (rest.drop ds.length)
    else
      consHead c (goSplit d ds rest)
termination_by input => input.length
decreasing_by
  · simp [List.length_drop]; omega
  · simp

/-- Go `strings.Join(pieces, sep)`. -/
def goJoin (sep : Chars) : List Chars → Chars
  | [] => []
  | [p] => p
  | p :: rest => p ++ sep ++ goJoin sep rest

/-- Go `unicode.IsSpace` restricted to the characters that occur in query
strings (ASCII whitespace). -/
def isSpaceChar (c : Char) : Bool :=
  c == ' ' || c == '\t' || c == '\n' || c == '\r'

/-- Go `strings.TrimSpace`. -/
def trimSpaceL (s : Chars) : Chars :=
  ((s.dropWhile isSpaceChar).reverse.dropWhile isSpaceChar).reverse

/-- Go `strings.Trim(s, "()")`: strip leading and trailing parentheses. -/
def isParenChar (c : Char) : Bool := c == '(' || c == ')'

def trimParensL (s : Chars) : Chars :=
  ((s.dropWhile isParenChar).reverse.dropWhile isParenChar).reverse

/-- Naive substring test (the service's own `containsSubstring` in
`retry.go`, also the core of Go `strings.Contains`). -/
def containsSubstring : Chars → Chars → Bool
  | _, [] => true
  | [], _ :: _ => false
  | c :: cs, sub => startsWithL (c :: cs) sub || containsSubstring cs sub

/-- Go `strings.ToLower` (ASCII, which covers every keyword involved). -/
def toLowerL (s : Chars) : Chars := s.map Char.toLower

/-- Does the string contain the character `c`?  (Go `strings.Contains`
with a one-character needle.) -/
def containsChar (s : Chars) (c : Char) : Bool := s.any (· == c)

/-! ## Field catalogue and operator whitelist (`internal/config`)

Transcribed from `config.go` / `constants.go`: `FieldMappings`,
`FilterOperators`, `PANFormats`, error codes and messages.  Maps are
association lists looked up with `List.lookup`. -/

def FieldMappings : List (String × String) :=
  [ ("tx_log_id", "p.payment_tx_log_id"),
    ("tx_log_type", "CASE WHEN p.payment_tx_type_id = 0 THEN 'payment' WHEN p.payment_tx_type_id = 1 THEN 'reversal' WHEN p.payment_tx_type_id = 2 THEN 'void' WHEN p.payment_tx_type_id = 3 THEN 'refund' WHEN p.payment_tx_type_id = 9 THEN 'mm purchase' WHEN p.payment_tx_type_id = 10 THEN 'mm refund' ELSE 'unknown' END"),
    ("tx_date_time", "p.updated_at"),
    ("amount", "p.amount"),
    ("merchant_id", "m.merchant_id"),
    ("merchant_name", "m.name"),
    ("device_id", "p.device_id"),
    ("response_code", "p.result_code"),
    ("auth_code", "p.auth_code"),
    ("rrn", "p.rrn"),
    ("pan", "pan"),
    ("reversed", "CASE WHEN p.reversed_tx_log_id IS NOT NULL THEN true ELSE false END"),
    ("settlement_status", "COALESCE(p.settlement_status, 'pending')"),
    ("stan", "p.stan"),
    ("user_ref", "p.meta->>'reference'"),
    ("meta", "p.meta"),
    ("settlement_date", "p.settlement_date"),
    ("card_type", "p.card_type") ]

def FilterOperators : List (String × String) :=
  [ ("eq", "="),
    ("ne", "!="),
    ("gt", ">"),
    ("gte", ">="),
    ("lt", "<"),
    ("lte", "<="),
    ("like", "LIKE"),
    ("ilike", "ILIKE"),
    ("in", "IN"),
    ("nin", "NOT IN"),
    ("isnull", "IS NULL"),
    ("isnotnull", "IS NOT NULL") ]

def PANFormats : List (String × String) :=
  [ ("bin_id_and_pan_id", "CONCAT(SUBSTRING(p.bin_id,1,4),' ',SUBSTRING(p.bin_id,5,2),'** **** ',p.pan_id)"),
    ("pan_id_only", "CONCAT('***** ',p.pan_id)") ]

def ErrorMessages : List (String × String) :=
  [ ("AUTHENTICATION_FAILED", "Authentication failed. Please check your credentials."),
    ("AUTHORIZATION_FAILED", "Access denied. You don't have permission to access this resource."),
    ("INVALID_FILTER", "Invalid filter expression. Please check your filter syntax."),
    ("INVALID_FIELD", "Invalid field specified. Please check the field name."),
    ("INVALID_SORT", "Invalid sort expression. Please check your sort syntax."),
    ("NOT_FOUND", "The requested resource was not found."),
    ("TRANSACTION_NOT_FOUND", "Transaction not found."),
    ("MERCHANT_NOT_FOUND", "Merchant not found."),
    ("DATABASE_ERROR", "Service temporarily unavailable. Please try again later."),
    ("INTERNAL_SERVER_ERROR", "An internal error occurred. Please try again later."),
    ("NOT_IMPLEMENTED", "This feature is not yet implemented."),
    ("BAD_REQUEST", "Invalid request. Please check your parameters."),
    ("SERVICE_UNAVAILABLE", "Service temporarily unavailable. Please try again later.") ]

/-- Model of `config.GetUserFriendlyMessage`. -/
def GetUserFriendlyMessage (errorCode : String) : String :=
  match (ErrorMessages.lookup errorCode) with
  | some message => message
  | none => "An unexpected error occurred. Please try again later."

/-! ## The normalised filter (`models.TransactionFilter`) -/

/-- Model of `models.SortParams`. -/
structure SortParams where
  field : String
  direction : String
deriving Repr, DecidableEq

structure TransactionFilter where
  merchantID : Option String := none
  deviceID : Option String := none
  profileID : Option String := none
  responseCode : Option String := none
  dateTimeFrom : Option Int := none
  dateTimeTo : Option Int := none
  currencyCode : Option String := none
  paymentProviderID : Option String := none
  txLogType : Option String := none
  amountMin : Option Int := none
  amountMax : Option Int := none
deriving Repr, DecidableEq

/-! ## Amount parsing (`parseAmount` in the transaction service)

`fmt.Sscanf("%d")` is modelled as: optional sign, then at least one
decimal digit, read greedily, trailing input ignored.  `fmt.Sscanf("%f")`
is modelled as: optional sign, decimal digits with an optional fractional
part, at least one digit in total; `int64(f * 100)` is modelled as exact
rational scaling truncated toward zero. -/

def digitVal (c : Char) : Nat := c.toNat - '0'.toNat

def digitsToNat (ds : Chars) : Nat := ds.foldl (fun a c => a * 10 + digitVal c) 0

def scanInt (cs : Chars) : Option Int :=
  let signRest : Int × Chars :=
    match cs with
    | '-' :: r => (-1, r)
    | '+' :: r => (1, r)
    | r => (1, r)
  let ds := signRest.2.takeWhile Char.isDigit
  if ds.isEmpty then none else some (signRest.1 * digitsToNat ds)

def scanFloat (cs : Chars) : Option ℚ :=
  let signRest : ℚ × Chars :=
    match cs with
    | '-' :: r => (-1, r)
    | '+' :: r => (1, r)
    | r => (1, r)
  let intDs := signRest.2.takeWhile Char.isDigit
  let rest := signRest.2.dropWhile Char.isDigit
  let fracDs : Chars :=
    match rest with
    | '.' :: r => r.takeWhile Char.isDigit
    | _ => []
  if intDs.isEmpty && fracDs.isEmpty then none
  else some (signRest.1 *
    ((digitsToNat intDs : ℚ) + (digitsToNat fracDs : ℚ) / (10 : ℚ) ^ fracDs.length))

/-- Truncation toward zero, as Go's `int64(f)` conversion. -/
def ratTrunc (q : ℚ) : Int := Int.tdiv q.num q.den

/-- Model of `parseAmount`: a dotted value is scanned as a decimal and scaled to
minor units by ×100 (truncated); an undotted value is scanned as an
integer and stored as-is. -/
def parseAmount (value : Chars) : Option Int :=
  if containsChar value '.' then
    match scanFloat value with
    | some q => some (ratTrunc (q * 100))
    | none => none
  else
    scanInt value

/-! ## Datetime parsing (`parseDateTime`, `isDateOnly`)

Go `time.Parse` against the service's format list.  An instant is integer
nanoseconds since the Unix epoch; days are converted with the standard
civil-calendar algorithm (years shifted by +400 to stay in `Nat`). -/

def nsPerSecond : Int := 1000000000

def nsPerDay : Int := 86400 * nsPerSecond

def isLeapYear (y : Nat) : Bool := y % 4 == 0 && (y % 100 != 0 || y % 400 == 0)

def daysInMonth (y m : Nat) : Nat :=
  if m = 2 then (if isLeapYear y then 29 else 28)
  else if m = 4 ∨ m = 6 ∨ m = 9 ∨ m = 11 then 30
  else 31

/-- Days since 1970-01-01 of the civil date `(y, m, d)`. -/
def daysFromCivil (y m d : Nat) : Int :=
  let yAdj : Nat := if m ≤ 2 then y + 399 else y + 400
  let era := yAdj / 400
  let yoe := yAdj % 400
  let mp := (m + 9) % 12
  let doy := (153 * mp + 2) / 5 + (d - 1)
  let doe := yoe * 365 + yoe / 4 - yoe / 100 + doy
  (era * 146097 + doe : Int) - 865565

/-- Nanoseconds since the epoch at midnight UTC of `(y, m, d)`. -/
def dateToNanos (y m d : Nat) : Int := daysFromCivil y m d * nsPerDay

/-- Parse exactly `k` decimal digits. -/
def parseFixedNat (k : Nat) (cs : Chars) : Option (Nat × Chars) :=
  let ds := cs.take k
  if ds.length = k && ds.all Char.isDigit then some (digitsToNat ds, cs.drop k)
  else none

/-- Parse one or two decimal digits, greedily (Go's non-fixed `getnum`). -/
def parseNat2 (cs : Chars) : Option (Nat × Chars) :=
  match cs with
  | c1 :: c2 :: rest =>
    if c1.isDigit && c2.isDigit then some (digitVal c1 * 10 + digitVal c2, rest)
    else if c1.isDigit then some (digitVal c1, c2 :: rest)
    else none
  | [c1] => if c1.isDigit then some (digitVal c1, []) else none
  | [] => none

def expectChar (c : Char) (cs : Chars) : Option Chars :=
  match cs with
  | x :: rest => if x = c then some rest else none
  | [] => none

/-- Parse `YYYY<sep>MM<sep>DD` with range validation, as Go `time.Parse`
does for the layouts `2006-01-02` and `2006/01/02`. -/
def parseDateYMD (sep : Char) (cs : Chars) : Option ((Nat × Nat × Nat) × Chars) := do
  let (y, r1) ← parseFixedNat 4 cs
  let r2 ← expectChar sep r1
  let (m, r3) ← parseFixedNat 2 r2
  let r4 ← expectChar sep r3
  let (d, r5) ← parseFixedNat 2 r4
  if 1 ≤ m && m ≤ 12 && 1 ≤ d && d ≤ daysInMonth y m then
    some ((y, m, d), r5)
  else none

/-- Optional fractional seconds: `.` or `,` followed by 1–9 digits,
scaled to nanoseconds. -/
def parseFraction (cs : Chars) : Nat × Chars :=
  match cs with
  | c :: rest =>
    if (c = '.' || c = ',') && (rest.takeWhile Char.isDigit ≠ []) then
      let ds := rest.takeWhile Char.isDigit
      if ds.length ≤ 9 then
        (digitsToNat ds * 10 ^ (9 - ds.length), rest.dropWhile Char.isDigit)
      else (0, cs)
    else (0, cs)
  | [] => (0, cs)

/-- Parse `hh:mm:ss` (hour 0–23 in one or two digits, minute and second
in exactly two digits, 0–59) plus optional fractional seconds.  Returns
(seconds of day, nanoseconds, rest). -/
def parseHMS (cs : Chars) : Option ((Nat × Nat) × Chars) := do
  let (hh, r1) ← parseNat2 cs
  let r2 ← expectChar ':' r1
  let (mi, r3) ← parseFixedNat 2 r2
  let r4 ← expectChar ':' r3
  let (ss, r5) ← parseFixedNat 2 r4
  if hh ≤ 23 && mi ≤ 59 && ss ≤ 59 then
    let (nanos, r6) := parseFraction r5
    some ((hh * 3600 + mi * 60 + ss, nanos), r6)
  else none

/-- Parse the RFC 3339 zone designator: `Z` or `±hh:mm`.  Returns the
offset in seconds east of UTC. -/
def parseZone (cs : Chars) : Option (Int × Chars) :=
  match cs with
  | 'Z' :: rest => some (0, rest)
  | '+' :: rest => do
    let (oh, r1) ← parseFixedNat 2 rest
    let r2 ← expectChar ':' r1
    let (om, r3) ← parseFixedNat 2 r2
    some ((oh * 3600 + om * 60 : Nat), r3)
  | '-' :: rest => do
    let (oh, r1) ← parseFixedNat 2 rest
    let r2 ← expectChar ':' r1
    let (om, r3) ← parseFixedNat 2 r2
    some (-((oh * 3600 + om * 60 : Nat) : Int), r3)
  | _ => none

def mkInstant (ymd : Nat × Nat × Nat) (secs : Nat) (nanos : Nat) (offset : Int) : Int :=
  (daysFromCivil ymd.1 ymd.2.1 ymd.2.2 * 86400 + secs - offset) * nsPerSecond + nanos

/-- Layout `time.RFC3339`: `2006-01-02T15:04:05Z07:00`. -/
def fmtRFC3339 (cs : Chars) : Option Int := do
  let (ymd, r1) ← parseDateYMD '-' cs
  let r2 ← expectChar 'T' r1
  let (sn, r3) ← parseHMS r2
  let (offset, r4) ← parseZone r3
  if r4 = [] then some (mkInstant ymd sn.1 sn.2 offset) else none

/-- Layout `2006-01-02T15:04:05`. -/
def fmtDateTimeT (cs : Chars) : Option Int := do
  let (ymd, r1) ← parseDateYMD '-' cs
  let r2 ← expectChar 'T' r1
  let (sn, r3) ← parseHMS r2
  if r3 = [] then some (mkInstant ymd sn.1 sn.2 0) else none

/-- Layout `2006-01-02 15:04:05`. -/
def fmtDateTimeSpace (cs : Chars) : Option Int := do
  let (ymd, r1) ← parseDateYMD '-' cs
  let r2 ← expectChar ' ' r1
  let (sn, r3) ← parseHMS r2
  if r3 = [] then some (mkInstant ymd sn.1 sn.2 0) else none

/-- Layout `2006-01-02`. -/
def fmtDateOnlyDash (cs : Chars) : Option Int := do
  let (ymd, r1) ← parseDateYMD '-' cs
  if r1 = [] then some (mkInstant ymd 0 0 0) else none

/-- Layout `2006/01/02 15:04:05`. -/
def fmtDateTimeSlash (cs : Chars) : Option Int := do
  let (ymd, r1) ← parseDateYMD '/' cs
  let r2 ← expectChar ' ' r1
  let (sn, r3) ← parseHMS r2
  if r3 = [] then some (mkInstant ymd sn.1 sn.2 0) else none

/-- Layout `2006/01/02`. -/
def fmtDateOnlySlash (cs : Chars) : Option Int := do
  let (ymd, r1) ← parseDateYMD '/' cs
  if r1 = [] then some (mkInstant ymd 0 0 0) else none

/-- Model of `parseDateTime`: try the six formats in the order of the Go source. -/
def parseDateTime (value : Chars) : Option Int :=
  (fmtRFC3339 value).orElse fun _ =>
  (fmtDateTimeT value).orElse fun _ =>
  (fmtDateTimeSpace value).orElse fun _ =>
  (fmtDateOnlyDash value).orElse fun _ =>
  (fmtDateTimeSlash value).orElse fun _ =>
  fmtDateOnlySlash value

/-- Model of `isDateOnly`: the value matches `2006-01-02` or `2006/01/02`. -/
def isDateOnly (dateStr : Chars) : Bool :=
  (fmtDateOnlyDash dateStr).isSome || (fmtDateOnlySlash dateStr).isSome

/-! ## Condition parsing (`parseAmountCondition`, `parseDateCondition`,
`parseCondition`) -/

/-- Model of `parseAmountCondition`: only `gte`, `lte` and `between` touch the
filter; every other operator falls through the `switch` and returns
`nil`. -/
def parseAmountCondition (operator value : Chars) (filter : TransactionFilter) :
    Except String TransactionFilter :=
  if String.mk operator = "gte" then
    match parseAmount value with
    | some amount => .ok { filter with amountMin := some amount }
    | none => .error ("invalid amount value: " ++ String.mk value)
  else if String.mk operator = "lte" then
    match parseAmount value with
    | some amount => .ok { filter with amountMax := some amount }
    | none => .error ("invalid amount value: " ++ String.mk value)
  else if String.mk operator = "between" then
    match goSplit ',' [] value with
    | [p1, p2] =>
      match parseAmount (trimSpaceL p1) with
      | some minAmount =>
        match parseAmount (trimSpaceL p2) with
        | some maxAmount =>
          .ok { filter with amountMin := some minAmount, amountMax := some maxAmount }
        | none => .error ("invalid max amount: " ++ String.mk p2)
      | none => .error ("invalid min amount: " ++ String.mk p1)
    | _ => .error "between operator requires two comma-separated values"
  else .ok filter

/-- Model of `parseDateCondition`: `gte` sets the lower bound; `lte` sets the upper
bound, extended to end of day for date-only values; `between` sets both;
any other operator falls through and returns `nil`.  (The `timezone`
argument is unused, as in the source.) -/
def parseDateCondition (operator value : Chars) (timezone : String)
    (filter : TransactionFilter) : Except String TransactionFilter :=
  if String.mk operator = "gte" then
    match parseDateTime value with
    | some date => .ok { filter with dateTimeFrom := some date }
    | none => .error ("invalid date format: " ++ String.mk value)
  else if String.mk operator = "lte" then
    match parseDateTime value with
    | some date =>
      let date := if isDateOnly value then date + (nsPerDay - 1) else date
      .ok { filter with dateTimeTo := some date }
    | none => .error ("invalid date format: " ++ String.mk value)
  else if String.mk operator = "between" then
    match goSplit ',' [] value with
    | [p1, p2] =>
      match parseDateTime (trimSpaceL p1) with
      | some fromDate =>
        match parseDateTime (trimSpaceL p2) with
        | some toDate =>
          let toDate :=
            if isDateOnly (trimSpaceL p2) then toDate + (nsPerDay - 1) else toDate
          .ok { filter with dateTimeFrom := some fromDate, dateTimeTo := some toDate }
        | none => .error ("invalid to date: " ++ String.mk p2)
      | none => .error ("invalid from date: " ++ String.mk p1)
    | _ => .error "between operator requires two comma-separated values"
  else .ok filter

/-- Model of `parseCondition`: split on `:` into `field:op:value` (the value may
itself contain colons), validate the operator against `FilterOperators`,
then dispatch on the field. -/
def parseCondition (condition : Chars) (timezone : String)
    (filter : TransactionFilter) : Except String TransactionFilter :=
  match goSplit ':' [] condition with
  | field :: operator :: v1 :: vrest =>
    let value := goJoin [':'] (v1 :: vrest)
    if (FilterOperators.lookup (String.mk operator)).isNone then
      .error ("invalid operator '" ++ String.mk operator ++ "' for field '" ++
        String.mk field ++ "'")
    else
      match String.mk field with
      | "merchant_id" =>
        .ok (if String.mk operator = "eq" then
          { filter with merchantID := some (String.mk value) } else filter)
      | "device_id" =>
        .ok (if String.mk operator = "eq" then
          { filter with deviceID := some (String.mk value) } else filter)
      | "response_code" =>
        .ok (if String.mk operator = "eq" then
          { filter with responseCode := some (String.mk value) } else filter)
      | "currency_code" =>
        .ok (if String.mk operator = "eq" then
          { filter with currencyCode := some (String.mk value) } else filter)
      | "tx_log_type" =>
        .ok (if String.mk operator = "eq" then
          { filter with txLogType := some (String.mk value) } else filter)
      | "amount" => parseAmountCondition operator value filter
      | "tx_date_time" => parseDateCondition operator value timezone filter
      | _ => .error ("unsupported filter field: " ++ String.mk field)
  | _ => .error ("invalid filter condition: " ++ String.mk condition)

/-! ## Filter-string splitting and `ParseAdvancedFilter` -/

/-- Parenthesis-depth-aware splitting, all pieces kept (the loop body of
`splitPreservingParentheses` before its non-empty guard). -/
def splitPPAll (d : Char) (ds : Chars) (parenCount : Int) : Chars → List Chars
  | [] => [[]]
  | c :: rest =>
    if c = '(' then consHead c (splitPPAll d ds (parenCount + 1) rest)
    else if c = ')' then consHead c (splitPPAll d ds (parenCount - 1) rest)
    else if parenCount = 0 && startsWithL (c :: rest) (d :: ds) then
      [] :: splitPPAll d ds parenCount (rest.drop ds.length)
    else consHead c (splitPPAll d ds parenCount rest)
termination_by input => input.length
decreasing_by
  · simp
  · simp
  · simp [List.length_drop]; omega
  · simp

/-- Model of `splitPreservingParentheses`: the Go loop appends a piece only when
`current` is non-empty; equivalently, split into all pieces and drop the
empty ones. -/
def splitPreservingParentheses (input : Chars) (d : Char) (ds : Chars) : List Chars :=
  (splitPPAll d ds 0 input).filter (fun p => !p.isEmpty)

/-- Model of `ParseAdvancedFilter`: split on ` AND ` preserving parenthesised
groups; a parenthesised condition is stripped of outer parentheses and
split on ` OR `; a plain condition is split on ` OR `; every resulting
comparison is folded into the same filter value. -/
def ParseAdvancedFilter (filterString : Chars) (timezone : String) :
    Except String TransactionFilter :=
  if filterString = [] then .ok {}
  else
    (splitPreservingParentheses filterString ' ' "AND ".data).foldlM
      (fun filter condition =>
        let condition := trimSpaceL condition
        if condition = [] then .ok filter
        else if startsWithL condition "(".data && endsWithL condition ")".data then
          let innerCondition := trimParensL condition
          (goSplit ' ' "OR ".data innerCondition).foldlM
            (fun f orCondition => parseCondition (trimSpaceL orCondition) timezone f)
            filter
        else
          (goSplit ' ' "OR ".data condition).foldlM
            (fun f orCondition => parseCondition (trimSpaceL orCondition) timezone f)
            filter)
      {}

/-! ## `ParseSort` and `ValidateFields` -/

/-- Model of `ParseSort`: comma-separated `field[:dir]`, direction defaulting to
`asc`, validated against `FieldMappings`. -/
def ParseSort (sortString : Chars) : Except String (List SortParams) :=
  if sortString = [] then .ok [{ field := "tx_date_time", direction := "desc" }]
  else
    (goSplit ',' [] sortString).foldlM
      (fun sortParams part =>
        let part := trimSpaceL part
        if part = [] then .ok sortParams
        else
          match goSplit ':' [] part with
          | [] => .ok sortParams
          | fd1 :: fdrest =>
            let field := String.mk fd1
            let direction :=
              match fdrest with
              | [] => "asc"
              | d :: _ => String.mk (toLowerL d)
            if direction ≠ "asc" && direction ≠ "desc" then
              .error ("invalid sort direction '" ++ direction ++ "' for field '" ++
                field ++ "'")
            else if (FieldMappings.lookup field).isNone && field ≠ "tx_date_time" then
              .error ("invalid sort field: " ++ field)
            else
              .ok (sortParams ++ [{ field := field, direction := direction }]))
      []

/-- The valid-field set of `ValidateFields`: every `FieldMappings` key
plus four additional names added by hand. -/
def validFields : List String :=
  FieldMappings.map (·.1) ++ ["created_at", "updated_at", "description", "currency_info"]

/-- Model of `ValidateFields`: scan the requested fields in order, failing on the
first one outside `validFields`. -/
def ValidateFields : List String → Except String Unit
  | [] => .ok ()
  | f :: rest =>
    if validFields.contains f then ValidateFields rest
    else .error ("invalid field: " ++ f)

/-! ## Query composition (`transaction_repository.go`)

A composed GORM query is modelled as its structural parts.  `WHERE`
conditions chained with `query.Where` conjoin, so they are kept as a list
of typed predicates with a three-valued-logic evaluator over joined rows
(`NULL` comparisons are never satisfied). -/

/-- A `WHERE` predicate bound to its parameters. -/
inductive Pred where
  | scopeMerchant (m : String)     -- m.merchant_id = ? OR m.provisioner_id = ?
  | txId (id : String)             -- p.payment_tx_log_id = ?
  | resultCodeEq (v : String)      -- p.result_code = ?
  | updatedAtGe (t : Int)          -- p.updated_at >= ?
  | updatedAtLe (t : Int)          -- p.updated_at <= ?
  | currencyEq (v : String)        -- p.currency_code = ?
  | amountGe (v : Int)             -- p.amount >= ?
  | amountLe (v : Int)             -- p.amount <= ?
  | txTypeEq (typeID : String)     -- p.payment_tx_type_id = ?
deriving Repr, DecidableEq

/-- A row of `payment_tx_log p` LEFT JOINed to `merchants m` and
`currency c`; nullable columns are `Option`. -/
structure JoinedRow where
  paymentTxLogId : String
  merchantId : Option String
  provisionerId : Option String
  resultCode : Option String
  updatedAt : Int
  currencyCode : Option String
  amount : Option Int
  paymentTxTypeId : Option String
deriving Repr, DecidableEq

/-- SQL satisfaction of one bound predicate (NULL never compares true). -/
def Pred.eval (r : JoinedRow) : Pred → Bool
  | .scopeMerchant m => r.merchantId == some m || r.provisionerId == some m
  | .txId id => r.paymentTxLogId == id
  | .resultCodeEq v => r.resultCode == some v
  | .updatedAtGe t => r.updatedAt ≥ t
  | .updatedAtLe t => r.updatedAt ≤ t
  | .currencyEq v => r.currencyCode == some v
  | .amountGe v => match r.amount with | some a => a ≥ v | none => false
  | .amountLe v => match r.amount with | some a => a ≤ v | none => false
  | .txTypeEq typeID => r.paymentTxTypeId == some typeID

structure ComposedQuery where
  table : String
  selectClause : String
  joins : List String
  wheres : List Pred := []
  orderBy : List String := []
  limit : Option Int := none
  offset : Option Int := none
deriving Repr, DecidableEq

def addWhere (query : ComposedQuery) (p : Pred) : ComposedQuery :=
  { query with wheres := query.wheres ++ [p] }

/-- A row is returned only if it satisfies every chained `WHERE`. -/
def rowMatches (r : JoinedRow) (query : ComposedQuery) : Bool :=
  query.wheres.all (Pred.eval r)

def mainJoins : List String :=
  [ "LEFT JOIN merchants m ON p.merchant_id = m.merchant_id",
    "LEFT JOIN currency c ON p.currency_code = c.curr_code" ]

/-- Model of `buildFieldSelection`: render the SELECT list for an explicit field
request. -/
def buildFieldSelection (fields : List String) (timezone panFormat : String) : String :=
  let panFormatSQL := (PANFormats.lookup panFormat).getD ""
  let panFormatSQL :=
    if panFormatSQL = "" then (PANFormats.lookup "bin_id_and_pan_id").getD ""
    else panFormatSQL
  let selectedFields := fields.foldl
    (fun selectedFields field =>
      match field with
      | "payment_tx_log_id" => selectedFields ++ ["p.payment_tx_log_id"]
      | "amount" => selectedFields ++ ["p.amount"]
      | "merchant_name" => selectedFields ++ ["m.name as merchant_name"]
      | "response_code" => selectedFields ++ ["p.result_code as response_code"]
      | "pan" => selectedFields ++ [panFormatSQL ++ " as pan"]
      | "tx_date_time" => selectedFields ++
          ["TO_CHAR(TIMEZONE('" ++ timezone ++
           "', p.updated_at), 'YYYY-MM-DD\"T\"HH24:MI:SS.MS\"Z\"') as tx_date_time"]
      | "tx_log_type" => selectedFields ++
          [((FieldMappings.lookup "tx_log_type").getD "") ++ " as tx_log_type"]
      | "currency_info" => selectedFields ++
          ["p.currency_code", "c.curr_short as currency_name", "c.curr_delim"]
      | _ =>
        match FieldMappings.lookup field with
        | some sqlField => selectedFields ++ [sqlField ++ " as " ++ field]
        | none => selectedFields ++ ["p." ++ field])
    []
  String.intercalate ", " selectedFields

/-- Model of `buildBaseQuery`. -/
def buildBaseQuery (fields : List String) (timezone panFormat : String) : ComposedQuery :=
  if fields.isEmpty then
    { table := "payment_tx_log p",
      selectClause := "DISTINCT ON (p.payment_tx_log_id) p.*, m.name as merchant_name, c.curr_short as currency_name, c.curr_delim",
      joins := mainJoins }
  else
    { table := "payment_tx_log p",
      selectClause := "DISTINCT ON (p.payment_tx_log_id) " ++
        buildFieldSelection fields timezone panFormat,
      joins := mainJoins }

/-- Model of `buildCountQuery`. -/
def buildCountQuery : ComposedQuery :=
  { table := "payment_tx_log p", selectClause := "", joins := mainJoins }

/-- The `switch *filter.TxLogType` mapping from label to discriminator
(empty for unknown labels). -/
def txLogTypeToID : String → String
  | "payment" => "0"
  | "reversal" => "1"
  | "void" => "2"
  | "refund" => "3"
  | "mm purchase" => "9"
  | "mm refund" => "10"
  | _ => ""

/-- The predicates `applyFilters` chains onto the query, in source order
(the `DeviceID` block is commented out in the source).  Each non-nil
filter field contributes one `query.Where`, so the net effect of the Go
function is appending this list. -/
def filterPreds (filter : TransactionFilter) : List Pred :=
  (match filter.responseCode with | some v => [Pred.resultCodeEq v] | none => []) ++
  (match filter.dateTimeFrom with | some t => [Pred.updatedAtGe t] | none => []) ++
  (match filter.dateTimeTo with | some t => [Pred.updatedAtLe t] | none => []) ++
  (match filter.currencyCode with | some v => [Pred.currencyEq v] | none => []) ++
  (match filter.amountMin with | some v => [Pred.amountGe v] | none => []) ++
  (match filter.amountMax with | some v => [Pred.amountLe v] | none => []) ++
  (match filter.txLogType with
   | some t => if txLogTypeToID t ≠ "" then [Pred.txTypeEq (txLogTypeToID t)] else []
   | none => [])

/-- Model of `applyFilters` (a nil filter pointer leaves the query unchanged). -/
def applyFilters (query : ComposedQuery) : Option TransactionFilter → ComposedQuery
  | none => query
  | some filter => { query with wheres := query.wheres ++ filterPreds filter }

/-- One rendered `ORDER BY` term of `applySortingWithDistinct`. -/
def sortTermSQL (s : SortParams) : String :=
  let direction := if s.direction.toLower = "desc" then "DESC" else "ASC"
  let sqlField :=
    match FieldMappings.lookup s.field with
    | some mappedField => mappedField
    | none => "p." ++ s.field
  sqlField ++ " " ++ direction

/-- Model of `applySortingWithDistinct`: the `ORDER BY` list starts with the
`DISTINCT ON` column, then either the default `p.updated_at DESC` or the
user-supplied terms. -/
def applySortingWithDistinct (query : ComposedQuery) (sort : List SortParams) :
    ComposedQuery :=
  let orderBy := ["p.payment_tx_log_id"]
  let orderBy :=
    if sort.isEmpty then orderBy ++ ["p.updated_at DESC"]
    else orderBy ++ sort.map sortTermSQL
  { query with orderBy := orderBy }

/-- The list query composed by `GetTransactions`. -/
def GetTransactionsQuery (merchantID : String) (filter : Option TransactionFilter)
    (fields : List String) (sort : List SortParams) (page limit : Int)
    (timezone panFormat : String) : ComposedQuery :=
  let query := buildBaseQuery fields timezone panFormat
  let query := addWhere query (.scopeMerchant merchantID)
  let query := applyFilters query filter
  let query := applySortingWithDistinct query sort
  { query with limit := some limit, offset := some ((page - 1) * limit) }

/-- The count query composed by `GetTransactions` / `GetTransactionCount`. -/
def GetTransactionCountQuery (merchantID : String) (filter : Option TransactionFilter) :
    ComposedQuery :=
  applyFilters (addWhere buildCountQuery (.scopeMerchant merchantID)) filter

/-- The query composed by `GetTransactionByID`. -/
def GetTransactionByIDQuery (merchantID transactionID : String) (fields : List String)
    (timezone panFormat : String) : ComposedQuery :=
  let query := buildBaseQuery fields timezone panFormat
  let query := addWhere query (.scopeMerchant merchantID)
  addWhere query (.txId transactionID)

/-- The aggregate query composed by `GetMerchantSummary`. -/
def GetMerchantSummaryQuery (merchantID : String) (filter : Option TransactionFilter) :
    ComposedQuery :=
  let query : ComposedQuery :=
    { table := "payment_tx_log p",
      selectClause := "m.merchant_id, m.name as merchant_name, COUNT(*) as total_transactions, SUM(CASE WHEN p.result_code IN ('00', '10') THEN 1 ELSE 0 END) as successful_transactions, SUM(COALESCE(p.amount, 0)) as total_amount, MIN(p.updated_at) as min_date, MAX(p.updated_at) as max_date",
      joins := ["LEFT JOIN merchants m ON p.merchant_id = m.merchant_id"] }
  applyFilters (addWhere query (.scopeMerchant merchantID)) filter

/-! ## Merchant summary (`GetMerchantSummary`)

The aggregate SELECT is given list-of-rows semantics; `float64`
arithmetic on the summary is modelled with exact rationals. -/

structure SummaryRow where
  resultCode : Option String
  amount : Option Int
  updatedAt : Int
deriving Repr, DecidableEq

/-- Model of `CASE WHEN p.result_code IN ('00', '10') THEN 1 ELSE 0 END`. -/
def isSuccessfulCode (c : Option String) : Bool := c == some "00" || c == some "10"

/-- Model of `COUNT(*)`. -/
def summaryTotalTransactions (rows : List SummaryRow) : Int := rows.length

/-- Model of `SUM(CASE WHEN p.result_code IN ('00', '10') THEN 1 ELSE 0 END)`. -/
def summarySuccessfulTransactions (rows : List SummaryRow) : Int :=
  (rows.filter (fun r => isSuccessfulCode r.resultCode)).length

/-- Model of `SUM(COALESCE(p.amount, 0))`. -/
def summaryTotalAmount (rows : List SummaryRow) : Int :=
  (rows.map (fun r => r.amount.getD 0)).sum

/-- Model of `MIN(p.updated_at)` (none on an empty group). -/
def summaryMinDate (rows : List SummaryRow) : Option Int :=
  (rows.map (·.updatedAt)).min?

/-- Model of `MAX(p.updated_at)`. -/
def summaryMaxDate (rows : List SummaryRow) : Option Int :=
  (rows.map (·.updatedAt)).max?

/-- Model of `models.MerchantSummary` (`AverageAmount` and `SuccessRate` are Go
`float64`, modelled as ℚ). -/
structure MerchantSummary where
  merchantID : String
  merchantName : String
  totalTransactions : Int := 0
  successfulTransactions : Int := 0
  failedTransactions : Int := 0
  totalAmount : Int := 0
  averageAmount : ℚ := 0
  successRate : ℚ := 0
  dateFrom : Option Int := none
  dateTo : Option Int := none
deriving Repr, DecidableEq

/-- Model of `GetMerchantSummary`, given the rows of the caller's group: build the
summary exactly as the Go function does from the aggregate row. -/
def GetMerchantSummaryResult (merchantID merchantName : String)
    (rows : List SummaryRow) : MerchantSummary :=
  let totalTxns := summaryTotalTransactions rows
  let successfulTxns := summarySuccessfulTransactions rows
  let summary : MerchantSummary :=
    { merchantID := merchantID,
      merchantName := merchantName,
      totalTransactions := totalTxns,
      successfulTransactions := successfulTxns,
      failedTransactions := totalTxns - successfulTxns,
      totalAmount := summaryTotalAmount rows,
      dateFrom := summaryMinDate rows,
      dateTo := summaryMaxDate rows }
  if totalTxns > 0 then
    { summary with
      averageAmount := (summaryTotalAmount rows : ℚ) / (totalTxns : ℚ),
      successRate := ((successfulTxns : ℚ) / (totalTxns : ℚ)) * 100 }
  else summary

/-! ## Error sanitisation (`config.IsInternalError`, handler error
responses in `auth_handler.go`) -/

def internalKeywords : List String :=
  [ "column", "does not exist", "SQLSTATE", "syntax error",
    "foreign key", "constraint", "duplicate", "unique",
    "connection", "timeout", "deadlock", "lock" ]

/-- Model of `config.IsInternalError` on a non-nil error's text. -/
def IsInternalError (errorStr : String) : Bool :=
  internalKeywords.any
    (fun keyword => containsSubstring (toLowerL errorStr.data) (toLowerL keyword.data))

/-- The observable part of an error response. -/
structure ErrorResponse where
  statusCode : Int
  code : String
  message : String
deriving Repr, DecidableEq

/-- Model of `sendErrorResponse`: the template for the code, unless the call site
passes a non-empty message, which wins. -/
def sendErrorResponse (statusCode : Int) (errorCode message : String) : ErrorResponse :=
  let userMessage := GetUserFriendlyMessage errorCode
  let userMessage := if message ≠ "" then message else userMessage
  { statusCode := statusCode, code := errorCode, message := userMessage }

/-- The store-error branch of the `GetTransactions` handler. -/
def getTransactionsStoreError (err : String) : ErrorResponse :=
  if IsInternalError err then sendErrorResponse 503 "SERVICE_UNAVAILABLE" ""
  else sendErrorResponse 500 "DATABASE_ERROR" ""

/-- The store-error branch of the `GetTransactionByID` handler: the raw
error text is interpolated into the message, with no
`IsInternalError` guard. -/
def getTransactionByIDStoreError (err : String) : ErrorResponse :=
  sendErrorResponse 500 "DATABASE_ERROR" ("Failed to retrieve transaction: " ++ err)

/-- The store-error branch of the `GetMerchantSummary` handler. -/
def getMerchantSummaryStoreError (err : String) : ErrorResponse :=
  if IsInternalError err then sendErrorResponse 503 "SERVICE_UNAVAILABLE" ""
  else sendErrorResponse 500 "DATABASE_ERROR" ""

/-! ## Retry harness (`internal/database/retry.go`) -/

structure RetryConfig where
  maxAttempts : Nat
  delay : Int      -- nanoseconds
  timeout : Int    -- nanoseconds
deriving Repr, DecidableEq

/-- Model of `DefaultRetryConfig`: 3 attempts, 1s initial delay, 5s timeout. -/
def DefaultRetryConfig : RetryConfig :=
  { maxAttempts := 3, delay := 1000000000, timeout := 5000000000 }

/-- Observable outcome of a retried operation: its result, how many times
the operation ran, and the sleeps performed between attempts. -/
structure RetryOutcome where
  result : Except String Unit
  attemptsUsed : Nat
  sleeps : List Int
deriving Repr

/-- The `for attempt := 1; attempt <= MaxAttempts; attempt++` loop of
`RetryWithBackoff`, iterating over the remaining attempt numbers; on
failure at the last attempt the loop breaks and the wrapped error is
returned. -/
def retryGo (operation : Nat → Option String) (maxAttempts : Nat) :
    List Nat → Int → List Int → String → RetryOutcome
  | [], _, sleeps, lastErr =>
    { result := .error ("operation failed after " ++ toString maxAttempts ++
        " attempts: " ++ lastErr),
      attemptsUsed := maxAttempts, sleeps := sleeps }
  | attempt :: restAttempts, delay, sleeps, lastErr =>
    match operation attempt with
    | none => { result := .ok (), attemptsUsed := attempt, sleeps := sleeps }
    | some err =>
      match restAttempts with
      | [] =>
        { result := .error ("operation failed after " ++ toString maxAttempts ++
            " attempts: " ++ err),
          attemptsUsed := attempt, sleeps := sleeps }
      | next :: rest =>
        retryGo operation maxAttempts (next :: rest) (delay * 2)
          (sleeps ++ [delay]) err

/-- Model of `RetryWithBackoff` (the operation is modelled as a function of the
attempt number; `lastErr` starts as Go's nil error). -/
def RetryWithBackoff (operation : Nat → Option String) (config : RetryConfig) :
    RetryOutcome :=
  retryGo operation config.maxAttempts (List.range' 1 config.maxAttempts)
    config.delay [] "<nil>"

def retryablePatterns : List String :=
  [ "connection refused", "connection reset", "timeout",
    "network is unreachable", "no route to host", "broken pipe", "EOF" ]

/-- Model of `IsRetryableError` on a non-nil error's text (the source's `contains`
helper is an ordinary case-sensitive substring test). -/
def IsRetryableError (errStr : String) : Bool :=
  retryablePatterns.any (fun pattern => containsSubstring errStr.data pattern.data)

/-! ## Auxiliary notions used only in statements and proofs -/

/-- A character of an ordinary comparison token: no whitespace, no
parentheses.  Comparison conditions such as `response_code:eq:00` are
made of plain characters. -/
def isPlainChar (c : Char) : Bool :=
  !isSpaceChar c && c != '(' && c != ')'

/-- No position of the string opens a parenthesis, closes one, or starts
an occurrence of the delimiter `d :: ds`. -/
def noSplitAt (d : Char) (ds : Chars) : Chars → Bool
  | [] => true
  | c :: rest =>
    c != '(' && c != ')' && !startsWithL (c :: rest) (d :: ds) &&
      noSplitAt d ds rest

/-- The store failure text of spec scenario S6. -/
def deviceIdErr : String := "ERROR: column p.device_id does not exist (SQLSTATE 42703)"

/-- A concrete in-scope joined row used to witness the scope-confinement
theorem. -/
def witnessRow : JoinedRow :=
  { paymentTxLogId := "t1", merchantId := some "M1", provisionerId := none,
    resultCode := some "00", updatedAt := 0, currencyCode := none,
    amount := some 100, paymentTxTypeId := some "0" }

/-- Concrete summary rows used to witness the summary-law theorem. -/
def witnessRows : List SummaryRow :=
  [ { resultCode := some "00", amount := some 100, updatedAt := 10 },
    { resultCode := some "99", amount := some 50, updatedAt := 20 },
    { resultCode := some "10", amount := none, updatedAt := 30 } ]

end Aken

deriving instance DecidableEq for Except

namespace Aken

/-! ## Generic lemmas -/

theorem lookup_isSome_iff_mem_keys (l : List (String × String)) (k : String) :
    ((l.lookup k).isSome = true) ↔ k ∈ l.map (·.1) := by
  induction l with
  | nil => simp [List.lookup]
  | cons p rest ih =>
    obtain ⟨a, b⟩ := p
    by_cases h : k = a
    · simp [List.lookup, h]
    · have hb : (k == a) = false := by simp [h]
      simp [List.lookup, hb, h, ih]

/-! ## C6 — DISTINCT-ON sort prefix -/

/-- C6.  For every sort specification (including the empty one), the
`ORDER BY` list built for the `DISTINCT ON` list query begins with
`p.payment_tx_log_id`, followed by the user-supplied terms (or the
default `p.updated_at DESC` when the sort is empty). -/
theorem distinct_on_order_first (merchantID : String) (filter : Option TransactionFilter)
    (fields : List String) (sort : List SortParams) (page limit : Int)
    (timezone panFormat : String) :
    (GetTransactionsQuery merchantID filter fields sort page limit timezone panFormat).orderBy =
      "p.payment_tx_log_id" ::
        (if sort.isEmpty then ["p.updated_at DESC"] else sort.map sortTermSQL) := by
  cases filter <;>
    simp [GetTransactionsQuery, applySortingWithDistinct, applyFilters, addWhere,
      buildBaseQuery] <;>
    split <;> simp

/-! ## C5 — field validation against the catalogue -/

/-- C5 counterexample.  `ValidateFields` accepts `created_at`, a name that
is not a key of the Field Catalogue, so acceptance is not equivalent to
catalogue membership. -/
theorem validate_fields_accepts_noncatalogue :
    ValidateFields ["created_at"] = .ok () ∧ "created_at" ∉ FieldMappings.map (·.1) := by
  exact ⟨rfl, by decide⟩

/-- C5 (amended).  `ValidateFields` succeeds exactly when every requested
name belongs to the catalogue keys *enlarged by the four hard-coded
names* `created_at`, `updated_at`, `description`, `currency_info`
(`validFields`); any other name fails validation. -/
theorem validate_fields_iff_enlarged (fields : List String) :
    ValidateFields fields = .ok () ↔ ∀ f ∈ fields, f ∈ validFields := by
  induction fields with
  | nil => simp [ValidateFields]
  | cons f rest ih =>
    by_cases h : f ∈ validFields <;> simp [ValidateFields, h, ih]

/-- Witness for C5: a list inside the enlarged set validates. -/
theorem validate_fields_iff_enlarged_witness :
    ValidateFields ["amount", "created_at"] = .ok () :=
  (validate_fields_iff_enlarged ["amount", "created_at"]).mpr (by decide)

/-! ## C3 — the `between` operator and the operator whitelist -/

/-- C3.  `FilterOperators` — the whitelist `parseCondition` validates
against — holds exactly twelve operators and no `between`, so both
`between` filters of the specification are rejected at operator-validation
time, even though the downstream `parseDateCondition` /
`parseAmountCondition` (final conjuncts) implement `between` and would
produce the documented range bounds if they were reachable. -/
theorem between_rejected_by_whitelist :
    FilterOperators.map (·.1) =
      ["eq", "ne", "gt", "gte", "lt", "lte", "like", "ilike", "in", "nin",
       "isnull", "isnotnull"] ∧
    FilterOperators.lookup "between" = none ∧
    ParseAdvancedFilter "tx_date_time:between:2024-01-01,2024-12-31".data "UTC" =
      .error "invalid operator 'between' for field 'tx_date_time'" ∧
    ParseAdvancedFilter "amount:between:1000,5000".data "UTC" =
      .error "invalid operator 'between' for field 'amount'" ∧
    parseDateCondition "between".data "2024-01-01,2024-12-31".data "UTC" {} =
      .ok { dateTimeFrom := some 1704067200000000000,
            dateTimeTo := some 1735689599999999999 } ∧
    parseAmountCondition "between".data "1000,5000".data {} =
      .ok { amountMin := some 1000, amountMax := some 5000 } := by
  refine ⟨by decide, by decide, ?_, ?_, ?_, ?_⟩
  · simp [ParseAdvancedFilter, splitPreservingParentheses, splitPPAll, goSplit,
      startsWithL, consHead, trimSpaceL, parseCondition, goJoin, FilterOperators,
      List.lookup, endsWithL, trimParensL, isSpaceChar]
  · simp [ParseAdvancedFilter, splitPreservingParentheses, splitPPAll, goSplit,
      startsWithL, consHead, trimSpaceL, parseCondition, goJoin, FilterOperators,
      List.lookup, endsWithL, trimParensL, isSpaceChar]
  · simp [parseDateCondition, goSplit, startsWithL, consHead, trimSpaceL, isSpaceChar]
    decide
  · simp [parseAmountCondition, goSplit, startsWithL, consHead, trimSpaceL, isSpaceChar]
    decide

/-! ## C4 — unsupported field/operator pairings -/

/-- C4 counterexample.  `amount:like:100` passes operator validation and
is *silently accepted*: parsing succeeds and the normalised filter is
unchanged (spec scenario S3 expects `400 INVALID_FILTER`). -/
theorem amount_like_silently_accepted :
    ParseAdvancedFilter "amount:like:100".data "UTC" = .ok ({} : TransactionFilter) := by
  simp [ParseAdvancedFilter, splitPreservingParentheses, splitPPAll, goSplit, startsWithL,
    consHead, trimSpaceL, parseCondition, goJoin, parseAmountCondition, FilterOperators,
    List.lookup, endsWithL, trimParensL, isSpaceChar]

/-- Splitting on a single character: a separator-free prefix becomes the
first piece. -/
theorem goSplit_single_append (c : Char) (a b : Chars) (ha : containsChar a c = false) :
    goSplit c [] (a ++ c :: b) = a :: goSplit c [] b := by
  induction a with
  | nil => simp [goSplit, startsWithL]
  | cons x a' ih =>
    simp [containsChar] at ha
    obtain ⟨hx, ha'⟩ := ha
    have ha'' : containsChar a' c = false := by
      simp [containsChar]
      exact ha'
    have hx' : (x == c) = false := by simp [hx]
    simp [goSplit, startsWithL, hx', consHead, ih ha'']

/-- The function `goSplit` never produces an empty list of pieces. -/
theorem goSplit_ne_nil (d : Char) (ds cs : Chars) : goSplit d ds cs ≠ [] := by
  cases cs with
  | nil => simp [goSplit]
  | cons x rest =>
    rw [goSplit]
    split
    · simp
    · rcases hL : goSplit d ds rest with _ | ⟨h, t⟩ <;> simp [consHead, hL]

/-- Go's `strings.Join(strings.Split(v, c), c) = v` for a one-character
separator. -/
theorem goJoin_goSplit (c : Char) (v : Chars) : goJoin [c] (goSplit c [] v) = v := by
  induction v with
  | nil => simp [goSplit, goJoin]
  | cons x rest ih =>
    by_cases hx : x = c
    · subst hx
      rw [goSplit]
      simp [startsWithL]
      rcases hL : goSplit x [] rest with _ | ⟨h, t⟩
      · exact absurd hL (goSplit_ne_nil x [] rest)
      · rw [hL] at ih
        simp [goJoin, ← ih]
    · have hx' : (x == c) = false := by simp [hx]
      rw [goSplit]
      simp [startsWithL, hx']
      rcases hL : goSplit c [] rest with _ | ⟨h, t⟩
      · exact absurd hL (goSplit_ne_nil c [] rest)
      · rw [hL] at ih
        cases t with
        | nil => simp [consHead, goJoin] at ih ⊢; exact ih
        | cons t1 t2 =>
          simp [consHead, goJoin] at ih ⊢
          simp [← ih]

/-- C4 (amended).  Pairing `amount` with any whitelisted operator other
than `gte`/`lte` (`between` is not whitelisted) is silently accepted:
`parseCondition` succeeds and leaves the filter unchanged. -/
theorem amount_unsupported_operator_ignored (op : String) (value : Chars)
    (filter : TransactionFilter) (tz : String)
    (hop : op ∈ (["eq", "ne", "gt", "lt", "like", "ilike", "in", "nin",
      "isnull", "isnotnull"] : List String)) :
    parseCondition ("amount:".data ++ op.data ++ ":".data ++ value) tz filter =
      .ok filter := by
  have hopc : containsChar op.data ':' = false := by
    fin_cases hop <;> decide
  have hmk : String.mk op.data = op := by
    rcases op with ⟨l⟩
    rfl
  have harr : "amount:".data ++ op.data ++ ":".data ++ value =
      "amount".data ++ ':' :: (op.data ++ ':' :: value) := by
    have h0 : "amount:".data = "amount".data ++ [':'] := rfl
    simp [h0]
  have hsplit : goSplit ':' [] ("amount:".data ++ op.data ++ ":".data ++ value) =
      "amount".data :: op.data :: goSplit ':' [] value := by
    rw [harr, goSplit_single_append ':' "amount".data _ (by decide),
      goSplit_single_append ':' op.data value hopc]
  have hlook : (FilterOperators.lookup op).isSome = true :=
    (lookup_isSome_iff_mem_keys FilterOperators op).mpr (by fin_cases hop <;> decide)
  have hops : op ≠ "gte" ∧ op ≠ "lte" ∧ op ≠ "between" := by
    fin_cases hop <;> exact ⟨by decide, by decide, by decide⟩
  rcases hv : goSplit ':' [] value with _ | ⟨v1, vrest⟩
  · exact absurd hv (goSplit_ne_nil ':' [] value)
  · rw [hv] at hsplit
    unfold parseCondition
    rw [hsplit]
    have hjoin : goJoin [':'] (v1 :: vrest) = value := by
      rw [← hv, goJoin_goSplit]
    simp only [hmk, hjoin]
    have hnone : (FilterOperators.lookup op).isNone = false := by
      rcases hll : FilterOperators.lookup op with _ | w
      · rw [hll] at hlook; simp at hlook
      · rfl
    simp only [hnone, Bool.false_eq_true, if_false]
    unfold parseAmountCondition
    rw [hmk]
    simp [hops.1, hops.2.1, hops.2.2]

/-- Witness for C4 (amended): `amount:like:100` parses to the unchanged
empty filter. -/
theorem amount_unsupported_operator_ignored_witness :
    parseCondition ("amount:".data ++ "like".data ++ ":".data ++ "100".data) "UTC" {} =
      .ok ({} : TransactionFilter) :=
  amount_unsupported_operator_ignored "like" "100".data {} "UTC" (by decide)

/-! ## String lemmas for filter-string splitting (used for C10) -/

theorem isPlainChar_spec {c : Char} (h : isPlainChar c = true) :
    isSpaceChar c = false ∧ (c == ' ') = false ∧ (c == '(') = false ∧
      (c == ')') = false ∧ c ≠ '(' ∧ c ≠ ')' := by
  have hspace : isSpaceChar c = false := by
    rcases hb : isSpaceChar c
    · rfl
    · simp [isPlainChar, hb] at h
  have hlp : c ≠ '(' := by
    intro he
    subst he
    exact absurd h (by decide)
  have hrp : c ≠ ')' := by
    intro he
    subst he
    exact absurd h (by decide)
  have hsp : (c == ' ') = false := by
    rcases hb : c == ' '
    · rfl
    · have : c = ' ' := by simpa using hb
      subst this
      simp [isSpaceChar] at hspace
  refine ⟨hspace, hsp, ?_, ?_, hlp, hrp⟩
  · simpa using hlp
  · simpa using hrp

theorem startsWithL_append_self (x y : Chars) : startsWithL (x ++ y) x = true := by
  induction x with
  | nil => simp [startsWithL]
  | cons c cs ih => simp [startsWithL, ih]

/-- A position-wise delimiter-free string is one piece for `splitPPAll`. -/
theorem splitPPAll_of_noSplit (d : Char) (ds : Chars) (pc : Int) (cs : Chars)
    (h : noSplitAt d ds cs = true) : splitPPAll d ds pc cs = [cs] := by
  induction cs generalizing pc with
  | nil => simp [splitPPAll]
  | cons c rest ih =>
    simp only [noSplitAt, Bool.and_eq_true, bne_iff_ne, ne_eq,
      Bool.not_eq_true'] at h
    obtain ⟨⟨⟨hc1, hc2⟩, hsw⟩, hrest⟩ := h
    simp [splitPPAll, hc1, hc2, hsw, consHead, ih pc hrest]

/-- The function `splitPPAll` splits exactly at a delimiter occurrence that follows a
plain prefix. -/
theorem splitPPAll_split_at (ds : Chars) (a b : Chars) (ha : a.all isPlainChar = true) :
    splitPPAll ' ' ds 0 (a ++ (' ' :: ds) ++ b) = a :: splitPPAll ' ' ds 0 b := by
  have c1 : (' ' : Char) ≠ '(' := by decide
  have c2 : (' ' : Char) ≠ ')' := by decide
  induction a with
  | nil =>
    simp only [List.nil_append, List.cons_append]
    simp [splitPPAll, startsWithL, startsWithL_append_self, c1, c2, List.drop_left]
  | cons x a' ih =>
    simp only [List.all_cons, Bool.and_eq_true] at ha
    obtain ⟨hx, ha'⟩ := ha
    obtain ⟨_, hx2, _, _, hx5, hx6⟩ := isPlainChar_spec hx
    have ih' := ih ha'
    simp only [List.append_assoc, List.cons_append] at ih' ⊢
    simp [splitPPAll, startsWithL, hx2, hx5, hx6, consHead, ih']

/-- A plain (space- and parenthesis-free) string is one piece for
`goSplit` on a space-headed separator. -/
theorem goSplit_plain (ds : Chars) (cs : Chars) (h : cs.all isPlainChar = true) :
    goSplit ' ' ds cs = [cs] := by
  induction cs with
  | nil => simp [goSplit]
  | cons c rest ih =>
    simp only [List.all_cons, Bool.and_eq_true] at h
    obtain ⟨hc, hrest⟩ := h
    obtain ⟨_, hc2, _, _, _, _⟩ := isPlainChar_spec hc
    simp [goSplit, startsWithL, hc2, consHead, ih hrest]

/-- The function `goSplit` splits exactly at a delimiter occurrence that follows a
plain prefix. -/
theorem goSplit_split_at (ds : Chars) (a b : Chars) (ha : a.all isPlainChar = true) :
    goSplit ' ' ds (a ++ (' ' :: ds) ++ b) = a :: goSplit ' ' ds b := by
  induction a with
  | nil =>
    simp only [List.nil_append, List.cons_append]
    simp [goSplit, startsWithL, startsWithL_append_self, List.drop_left]
  | cons x a' ih =>
    simp only [List.all_cons, Bool.and_eq_true] at ha
    obtain ⟨hx, ha'⟩ := ha
    obtain ⟨_, hx2, _, _, _, _⟩ := isPlainChar_spec hx
    have ih' := ih ha'
    simp only [List.append_assoc, List.cons_append] at ih' ⊢
    simp [goSplit, startsWithL, hx2, consHead, ih']

/-- A plain prefix introduces no split point for a space-headed
delimiter. -/
theorem noSplitAt_append (ds : Chars) (a rest : Chars) (ha : a.all isPlainChar = true)
    (hrest : noSplitAt ' ' ds rest = true) : noSplitAt ' ' ds (a ++ rest) = true := by
  induction a with
  | nil => simpa using hrest
  | cons x a' ih =>
    simp only [List.all_cons, Bool.and_eq_true] at ha
    obtain ⟨hx, ha'⟩ := ha
    obtain ⟨_, hx2, _, _, hx5, hx6⟩ := isPlainChar_spec hx
    simp [noSplitAt, startsWithL, hx2, hx5, hx6, ih ha']

theorem noSplitAt_plain (ds : Chars) (cs : Chars) (h : cs.all isPlainChar = true) :
    noSplitAt ' ' ds cs = true := by
  have := noSplitAt_append ds cs [] h (by simp [noSplitAt])
  simpa using this

/-- A plain string never begins with `AND␣` (its fourth character would
have to be a space). -/
theorem not_startsWithL_AND (b : Chars) (hb : b.all isPlainChar = true) :
    startsWithL b ('A' :: 'N' :: 'D' :: ' ' :: []) = false := by
  rcases b with _ | ⟨c1, _ | ⟨c2, _ | ⟨c3, _ | ⟨c4, rest⟩⟩⟩⟩
  · rfl
  · simp [startsWithL]
  · simp [startsWithL]
  · simp [startsWithL]
  · simp only [List.all_cons, Bool.and_eq_true] at hb
    obtain ⟨_, _, _, h4, _⟩ := hb
    obtain ⟨_, h4sp, _, _, _, _⟩ := isPlainChar_spec h4
    simp [startsWithL, h4sp]

/-- Under the ` AND ` delimiter, the region ` OR ` followed by a plain
string contains no split point. -/
theorem noSplitAt_AND_of_OR (b : Chars) (hb : b.all isPlainChar = true) :
    noSplitAt ' ' "AND ".data (" OR ".data ++ b) = true := by
  have hb' : noSplitAt ' ' "AND ".data b := noSplitAt_plain _ b hb
  have hOA : (('O' : Char) == 'A') = false := by decide
  have hRs : (('R' : Char) == ' ') = false := by decide
  have hOs : (('O' : Char) == ' ') = false := by decide
  have hnb := not_startsWithL_AND b hb
  simp [noSplitAt, startsWithL, hOA, hRs, hOs, hnb, hb']

theorem trimSpaceL_of_plain (cs : Chars) (h : cs.all isPlainChar = true) :
    trimSpaceL cs = cs := by
  unfold trimSpaceL
  have h1 : cs.dropWhile isSpaceChar = cs := by
    cases cs with
    | nil => rfl
    | cons c rest =>
      simp only [List.all_cons, Bool.and_eq_true] at h
      obtain ⟨hc, _⟩ := h
      obtain ⟨hs, _, _, _, _, _⟩ := isPlainChar_spec hc
      simp [List.dropWhile_cons, hs]
  have h2 : cs.reverse.dropWhile isSpaceChar = cs.reverse := by
    cases hr : cs.reverse with
    | nil => rfl
    | cons c rest =>
      have hc : c ∈ cs := by
        have hm : c ∈ cs.reverse := by rw [hr]; simp
        simpa using hm
      have hcp : isPlainChar c = true := (List.all_eq_true.mp h) c hc
      obtain ⟨hs, _, _, _, _, _⟩ := isPlainChar_spec hcp
      simp [List.dropWhile_cons, hs]
  rw [h1, h2, List.reverse_reverse]

/-- Trimming is the identity on a string with a plain first and last
character (e.g. `cond1 OR cond2`). -/
theorem trimSpaceL_sandwich (a mid b : Chars) (ha : a.all isPlainChar = true)
    (hb : b.all isPlainChar = true) (ha' : a ≠ []) (hb' : b ≠ []) :
    trimSpaceL (a ++ mid ++ b) = a ++ mid ++ b := by
  unfold trimSpaceL
  have h1 : (a ++ mid ++ b).dropWhile isSpaceChar = a ++ mid ++ b := by
    cases a with
    | nil => exact absurd rfl ha'
    | cons x a'' =>
      simp only [List.all_cons, Bool.and_eq_true] at ha
      obtain ⟨hx, _⟩ := ha
      obtain ⟨hs, _, _, _, _, _⟩ := isPlainChar_spec hx
      simp only [List.cons_append]
      simp [List.dropWhile_cons, hs]
  have h2 : (a ++ mid ++ b).reverse.dropWhile isSpaceChar = (a ++ mid ++ b).reverse := by
    cases hr : b.reverse with
    | nil =>
      exact absurd (by simpa using congrArg List.reverse hr) hb'
    | cons z bs =>
      have hz : z ∈ b := by
        have hm : z ∈ b.reverse := by rw [hr]; simp
        simpa using hm
      have hzp : isPlainChar z = true := (List.all_eq_true.mp hb) z hz
      obtain ⟨hs, _, _, _, _, _⟩ := isPlainChar_spec hzp
      have hrw : (a ++ mid ++ b).reverse = z :: (bs ++ (mid.reverse ++ a.reverse)) := by
        simp [List.reverse_append, hr]
      rw [hrw]
      simp [List.dropWhile_cons, hs]
  rw [h1, h2, List.reverse_reverse]

/-- A plain non-empty string does not look like a parenthesised group. -/
theorem startsWithL_lparen_of_plain (a : Chars) (ha : a.all isPlainChar = true)
    (ha' : a ≠ []) : startsWithL a "(".data = false := by
  cases a with
  | nil => exact absurd rfl ha'
  | cons x a'' =>
    simp only [List.all_cons, Bool.and_eq_true] at ha
    obtain ⟨hx, _⟩ := ha
    obtain ⟨_, _, hx3, _, _, _⟩ := isPlainChar_spec hx
    simp [startsWithL, hx3]

/-- The ` OR `-joined pair is one ` AND `-piece, then splits on ` OR `
into the two conditions: `ParseAdvancedFilter` folds `parseCondition b`
after `parseCondition a`. -/
theorem parseAdvancedFilter_or_pair (a b : Chars) (tz : String)
    (ha : a.all isPlainChar = true) (hb : b.all isPlainChar = true)
    (ha' : a ≠ []) (hb' : b ≠ []) :
    ParseAdvancedFilter (a ++ " OR ".data ++ b) tz =
      (parseCondition a tz {} >>= fun f => parseCondition b tz f) := by
  have hne : a ++ " OR ".data ++ b ≠ [] := by
    cases a with
    | nil => exact absurd rfl ha'
    | cons x a'' => simp
  have hsplit1 : splitPreservingParentheses (a ++ " OR ".data ++ b) ' ' "AND ".data =
      [a ++ " OR ".data ++ b] := by
    unfold splitPreservingParentheses
    have hns : noSplitAt ' ' "AND ".data (a ++ (" OR ".data ++ b)) = true :=
      noSplitAt_append _ a _ ha (noSplitAt_AND_of_OR b hb)
    have hsp : splitPPAll ' ' "AND ".data 0 (a ++ " OR ".data ++ b) =
        [a ++ " OR ".data ++ b] := by
      have h0 := splitPPAll_of_noSplit ' ' "AND ".data 0 (a ++ (" OR ".data ++ b)) hns
      simpa [List.append_assoc] using h0
    rw [hsp]
    rcases a with _ | ⟨x, a''⟩
    · exact absurd rfl ha'
    · simp [List.filter]
  have htrim : trimSpaceL (a ++ " OR ".data ++ b) = a ++ " OR ".data ++ b :=
    trimSpaceL_sandwich a (" OR ".data) b ha hb ha' hb'
  have hpar : startsWithL (a ++ " OR ".data ++ b) "(".data = false := by
    cases a with
    | nil => exact absurd rfl ha'
    | cons x a'' =>
      simp only [List.all_cons, Bool.and_eq_true] at ha
      obtain ⟨hx, _⟩ := ha
      obtain ⟨_, _, hx3, _, _, _⟩ := isPlainChar_spec hx
      simp [startsWithL, hx3]
  have hg : goSplit ' ' "OR ".data (a ++ " OR ".data ++ b) = [a, b] := by
    have hd : (' ' :: "OR ".data : Chars) = " OR ".data := rfl
    have h1 := goSplit_split_at "OR ".data a b ha
    rw [hd] at h1
    rw [h1, goSplit_plain _ b hb]
  unfold ParseAdvancedFilter
  rw [if_neg hne, hsplit1]
  simp only [List.foldlM_cons, List.foldlM_nil, htrim]
  rw [if_neg hne]
  simp only [hpar, Bool.false_and, Bool.false_eq_true, if_false, hg,
    List.foldlM_cons, List.foldlM_nil, trimSpaceL_of_plain a ha,
    trimSpaceL_of_plain b hb]
  rcases hA : parseCondition a tz ({} : TransactionFilter) with eA | fA
  · simp [hA, Except.bind]
  · rcases hB : parseCondition b tz fA with eB | fB <;> simp [hA, hB, Except.bind]

/-- The ` AND `-joined pair splits into the two conditions, each its own
piece: `ParseAdvancedFilter` folds `parseCondition b` after
`parseCondition a` — exactly as for ` OR `. -/
theorem parseAdvancedFilter_and_pair (a b : Chars) (tz : String)
    (ha : a.all isPlainChar = true) (hb : b.all isPlainChar = true)
    (ha' : a ≠ []) (hb' : b ≠ []) :
    ParseAdvancedFilter (a ++ " AND ".data ++ b) tz =
      (parseCondition a tz {} >>= fun f => parseCondition b tz f) := by
  have hne : a ++ " AND ".data ++ b ≠ [] := by
    cases a with
    | nil => exact absurd rfl ha'
    | cons x a'' => simp
  have hsplit2 : splitPreservingParentheses (a ++ " AND ".data ++ b) ' ' "AND ".data =
      [a, b] := by
    unfold splitPreservingParentheses
    have hd : (' ' :: "AND ".data : Chars) = " AND ".data := rfl
    have h1 := splitPPAll_split_at "AND ".data a b ha
    rw [hd] at h1
    have h2 : splitPPAll ' ' "AND ".data 0 b = [b] :=
      splitPPAll_of_noSplit _ _ 0 b (noSplitAt_plain _ b hb)
    rw [h1, h2]
    have hae : a.isEmpty = false := by simpa [List.isEmpty_iff] using ha'
    have hbe : b.isEmpty = false := by simpa [List.isEmpty_iff] using hb'
    simp [List.filter, hae, hbe]
  have hpa : startsWithL a "(".data = false := startsWithL_lparen_of_plain a ha ha'
  have hpb : startsWithL b "(".data = false := startsWithL_lparen_of_plain b hb hb'
  have hga : goSplit ' ' "OR ".data a = [a] := goSplit_plain _ a ha
  have hgb : goSplit ' ' "OR ".data b = [b] := goSplit_plain _ b hb
  unfold ParseAdvancedFilter
  rw [if_neg hne, hsplit2]
  simp only [List.foldlM_cons, List.foldlM_nil, trimSpaceL_of_plain a ha,
    trimSpaceL_of_plain b hb, if_neg ha', if_neg hb', hpa, hpb, Bool.false_and,
    Bool.false_eq_true, if_false, hga, hgb]
  rcases hA : parseCondition a tz ({} : TransactionFilter) with eA | fA
  · simp [hA, Except.bind]
  · rcases hB : parseCondition b tz fA with eB | fB <;> simp [hA, hB, Except.bind]

/-- C10.  For any two (space- and parenthesis-free, e.g. ordinary
comparison) conditions, `A OR B` parses to exactly the same normalised
filter as `A AND B`: both fold `parseCondition B` after
`parseCondition A` into one conjunctive bag, so OR has no disjunctive
effect — and a later condition on the same field overwrites an earlier
one (final conjunct: the second `response_code` wins). -/
theorem or_and_fold_equivalent (a b : Chars) (tz : String)
    (ha : a.all isPlainChar = true) (hb : b.all isPlainChar = true)
    (ha' : a ≠ []) (hb' : b ≠ []) :
    ParseAdvancedFilter (a ++ " OR ".data ++ b) tz =
      ParseAdvancedFilter (a ++ " AND ".data ++ b) tz ∧
    ParseAdvancedFilter (a ++ " OR ".data ++ b) tz =
      (parseCondition a tz {} >>= fun f => parseCondition b tz f) ∧
    ParseAdvancedFilter "response_code:eq:00 OR response_code:eq:05".data tz =
      .ok { responseCode := some "05" } := by
  refine ⟨?_, parseAdvancedFilter_or_pair a b tz ha hb ha' hb', ?_⟩
  · rw [parseAdvancedFilter_or_pair a b tz ha hb ha' hb',
      parseAdvancedFilter_and_pair a b tz ha hb ha' hb']
  · simp [ParseAdvancedFilter, splitPreservingParentheses, splitPPAll, goSplit,
      startsWithL, consHead, trimSpaceL, parseCondition, goJoin, FilterOperators,
      List.lookup, endsWithL, trimParensL, isSpaceChar]
    rfl

/-- Witness for C10 at two concrete comparisons over distinct fields. -/
theorem or_and_fold_equivalent_witness :
    ParseAdvancedFilter
        ("response_code:eq:00".data ++ " OR ".data ++ "amount:gte:1000".data) "UTC" =
      ParseAdvancedFilter
        ("response_code:eq:00".data ++ " AND ".data ++ "amount:gte:1000".data) "UTC" :=
  (or_and_fold_equivalent "response_code:eq:00".data "amount:gte:1000".data "UTC"
    (by decide) (by decide) (by decide) (by decide)).1

/-! ## C7 — date-only upper bounds -/

theorem expectChar_some {c : Char} {cs r : Chars} (h : expectChar c cs = some r) :
    cs = c :: r := by
  cases cs with
  | nil => simp [expectChar] at h
  | cons x rest =>
    simp only [expectChar] at h
    split at h
    · rename_i hxc
      injection h with h
      rw [hxc, h]
    · exact absurd h (by simp)

theorem mkInstant_date (y m d : Nat) : mkInstant (y, m, d) 0 0 0 = dateToNanos y m d := by
  unfold mkInstant dateToNanos nsPerDay
  push_cast
  ring

/-- A successful `2006-01-02` parse is a full-string date parse at
midnight. -/
theorem fmtDateOnlyDash_some {v : Chars} {t : Int} (h : fmtDateOnlyDash v = some t) :
    ∃ y m d, parseDateYMD '-' v = some ((y, m, d), []) ∧ t = dateToNanos y m d := by
  unfold fmtDateOnlyDash at h
  rcases hp : parseDateYMD '-' v with _ | ⟨⟨y, m, d⟩, r1⟩
  · rw [hp] at h; simp at h
  · rw [hp] at h
    simp at h
    obtain ⟨hr1, hmk⟩ := h
    subst hr1
    exact ⟨y, m, d, rfl, by rw [← hmk, mkInstant_date]⟩

/-- A successful `2006/01/02` parse is a full-string date parse at
midnight. -/
theorem fmtDateOnlySlash_some {v : Chars} {t : Int} (h : fmtDateOnlySlash v = some t) :
    ∃ y m d, parseDateYMD '/' v = some ((y, m, d), []) ∧ t = dateToNanos y m d := by
  unfold fmtDateOnlySlash at h
  rcases hp : parseDateYMD '/' v with _ | ⟨⟨y, m, d⟩, r1⟩
  · rw [hp] at h; simp at h
  · rw [hp] at h
    simp at h
    obtain ⟨hr1, hmk⟩ := h
    subst hr1
    exact ⟨y, m, d, rfl, by rw [← hmk, mkInstant_date]⟩

/-- When the whole input is a dash date, the three formats that demand a
time component after the date all fail. -/
theorem fmt_time_none_of_dash_dateOnly {v : Chars} {y m d : Nat}
    (hp : parseDateYMD '-' v = some ((y, m, d), [])) :
    fmtRFC3339 v = none ∧ fmtDateTimeT v = none ∧ fmtDateTimeSpace v = none := by
  unfold fmtRFC3339 fmtDateTimeT fmtDateTimeSpace
  simp [hp, expectChar]

/-- A string that parses as a slash date does not parse as a dash date. -/
theorem parseDateYMD_dash_none_of_slash {v : Chars} {y m d : Nat} {r : Chars}
    (hp : parseDateYMD '/' v = some ((y, m, d), r)) :
    parseDateYMD '-' v = none := by
  unfold parseDateYMD at hp ⊢
  rcases h4 : parseFixedNat 4 v with _ | ⟨y4, r1⟩
  · simp [h4] at hp
  · simp only [h4, Option.some_bind] at hp ⊢
    rcases he : expectChar '/' r1 with _ | r2
    · simp [he] at hp
    · have hr1 : r1 = '/' :: r2 := expectChar_some he
      subst hr1
      simp [expectChar]

/-- Any date-only value (`YYYY-MM-DD` or `YYYY/MM/DD`) parses with
`parseDateTime` to midnight — the start of that day. -/
theorem dateOnly_parse (v : Chars) (h : isDateOnly v = true) :
    ∃ y m d, (parseDateYMD '-' v = some ((y, m, d), []) ∨
              parseDateYMD '/' v = some ((y, m, d), [])) ∧
      parseDateTime v = some (dateToNanos y m d) := by
  unfold isDateOnly at h
  simp only [Bool.or_eq_true, Option.isSome_iff_exists] at h
  rcases h with ⟨t, ht⟩ | ⟨t, ht⟩
  · obtain ⟨y, m, d, hp, htd⟩ := fmtDateOnlyDash_some ht
    obtain ⟨hrfc, hT, hSp⟩ := fmt_time_none_of_dash_dateOnly hp
    refine ⟨y, m, d, Or.inl hp, ?_⟩
    unfold parseDateTime
    simp [hrfc, hT, hSp, Option.orElse]
    rw [ht, htd]
  · obtain ⟨y, m, d, hp, htd⟩ := fmtDateOnlySlash_some ht
    have hdash : parseDateYMD '-' v = none := parseDateYMD_dash_none_of_slash hp
    have hrfc : fmtRFC3339 v = none := by unfold fmtRFC3339; simp [hdash]
    have hT : fmtDateTimeT v = none := by unfold fmtDateTimeT; simp [hdash]
    have hSp : fmtDateTimeSpace v = none := by unfold fmtDateTimeSpace; simp [hdash]
    have hDO : fmtDateOnlyDash v = none := by unfold fmtDateOnlyDash; simp [hdash]
    have hSl : fmtDateTimeSlash v = none := by unfold fmtDateTimeSlash; simp [hp, expectChar]
    refine ⟨y, m, d, Or.inr hp, ?_⟩
    unfold parseDateTime
    simp [hrfc, hT, hSp, hDO, hSl, Option.orElse]
    rw [ht, htd]

/-- C7.  A date-only value used as an upper bound — operator `lte`, or
the second half of a `between` range — yields a bound equal to the start
of that day plus `24h − 1ns`; a value with a time component is used
unmodified; an unparseable value is a parse error (which the handler
returns as `400 INVALID_FILTER`). -/
theorem date_upper_bound_inclusive (v p1 p2 value : Chars) (filter : TransactionFilter)
    (tz : String) :
    (isDateOnly v = true →
      ∃ y m d, (parseDateYMD '-' v = some ((y, m, d), []) ∨
                parseDateYMD '/' v = some ((y, m, d), [])) ∧
        parseDateTime v = some (dateToNanos y m d) ∧
        parseDateCondition "lte".data v tz filter =
          .ok { filter with dateTimeTo := some (dateToNanos y m d + (nsPerDay - 1)) }) ∧
    (∀ t, isDateOnly v = false → parseDateTime v = some t →
      parseDateCondition "lte".data v tz filter =
        .ok { filter with dateTimeTo := some t }) ∧
    (parseDateTime v = none →
      parseDateCondition "lte".data v tz filter =
        .error ("invalid date format: " ++ String.mk v)) ∧
    (∀ f, goSplit ',' [] value = [p1, p2] → parseDateTime (trimSpaceL p1) = some f →
      isDateOnly (trimSpaceL p2) = true →
      ∃ y m d, parseDateTime (trimSpaceL p2) = some (dateToNanos y m d) ∧
        parseDateCondition "between".data value tz filter =
          .ok { filter with dateTimeFrom := some f, dateTimeTo := some (dateToNanos y m d + (nsPerDay - 1)) }) := by
  refine ⟨?_, ?_, ?_, ?_⟩
  · intro h
    obtain ⟨y, m, d, hp, hpt⟩ := dateOnly_parse v h
    refine ⟨y, m, d, hp, hpt, ?_⟩
    unfold parseDateCondition
    simp [hpt, h]
  · intro t h hpt
    unfold parseDateCondition
    simp [hpt, h]
  · intro h
    unfold parseDateCondition
    simp [h]
  · intro f hsplit hp1 h2
    obtain ⟨y, m, d, _, hpt2⟩ := dateOnly_parse _ h2
    refine ⟨y, m, d, hpt2, ?_⟩
    unfold parseDateCondition
    simp [hsplit, hp1, hpt2, h2]

/-- Witness for C7: `lte:2024-12-31` includes the whole of 2024-12-31. -/
theorem date_upper_bound_inclusive_witness :
    isDateOnly "2024-12-31".data = true ∧
    (∃ y m d, (parseDateYMD '-' "2024-12-31".data = some ((y, m, d), []) ∨
               parseDateYMD '/' "2024-12-31".data = some ((y, m, d), [])) ∧
       parseDateTime "2024-12-31".data = some (dateToNanos y m d) ∧
       parseDateCondition "lte".data "2024-12-31".data "UTC" {} =
         .ok { dateTimeTo := some (dateToNanos y m d + (nsPerDay - 1)) }) :=
  ⟨by decide,
   (date_upper_bound_inclusive "2024-12-31".data [] [] [] {} "UTC").1 (by decide)⟩

/-! ## C2 — error sanitisation -/

/-- C2.  The list and summary handlers sanitise the S6 store failure to
the `SERVICE_UNAVAILABLE` template, but the single-record handler
`GetTransactionByID` interpolates the raw store error into its response
message, which therefore contains `column` and is not the
`DATABASE_ERROR` template. -/
theorem error_sanitisation_bug :
    IsInternalError deviceIdErr = true ∧
    getTransactionsStoreError deviceIdErr =
      { statusCode := 503, code := "SERVICE_UNAVAILABLE",
        message := "Service temporarily unavailable. Please try again later." } ∧
    getMerchantSummaryStoreError deviceIdErr =
      { statusCode := 503, code := "SERVICE_UNAVAILABLE",
        message := "Service temporarily unavailable. Please try again later." } ∧
    getTransactionByIDStoreError deviceIdErr =
      { statusCode := 500, code := "DATABASE_ERROR",
        message := "Failed to retrieve transaction: ERROR: column p.device_id does not exist (SQLSTATE 42703)" } ∧
    containsSubstring (getTransactionByIDStoreError deviceIdErr).message.data
      "column".data = true ∧
    (getTransactionByIDStoreError deviceIdErr).message ≠
      GetUserFriendlyMessage "DATABASE_ERROR" := by
  refine ⟨by decide, by decide, by decide, by decide, by decide, by decide⟩

/-! ## C8 — retry harness -/

/-- C8 counterexample.  An error matching none of the transient patterns
is *not* failed fast: `RetryWithBackoff` still runs all three attempts
with the 1s-then-2s backoff sleeps. -/
theorem retry_nonretryable_still_retried :
    IsRetryableError "some permanent failure" = false ∧
    RetryWithBackoff (fun _ => some "some permanent failure") DefaultRetryConfig =
      { result := .error "operation failed after 3 attempts: some permanent failure",
        attemptsUsed := 3, sleeps := [1000000000, 2000000000] } ∧
    (RetryWithBackoff (fun _ => some "some permanent failure")
      DefaultRetryConfig).attemptsUsed ≠ 1 := by
  refine ⟨by decide, rfl, by decide⟩

/-- C8 (amended).  The harness executes the operation at most 3 times
under the default config, sleeping 1s before the second attempt and 2s
before the third, stopping early exactly on success — and it retries
*every* failing operation this way, including one whose error matches no
transient pattern (`IsRetryableError` is never consulted by the loop). -/
theorem retry_backoff_behaviour (operation : Nat → Option String) :
    (RetryWithBackoff operation DefaultRetryConfig).attemptsUsed ≤ 3 ∧
    (operation 1 = none →
      RetryWithBackoff operation DefaultRetryConfig =
        { result := .ok (), attemptsUsed := 1, sleeps := [] }) ∧
    (∀ e1, operation 1 = some e1 → operation 2 = none →
      RetryWithBackoff operation DefaultRetryConfig =
        { result := .ok (), attemptsUsed := 2, sleeps := [1000000000] }) ∧
    (∀ e1 e2, operation 1 = some e1 → operation 2 = some e2 → operation 3 = none →
      RetryWithBackoff operation DefaultRetryConfig =
        { result := .ok (), attemptsUsed := 3, sleeps := [1000000000, 2000000000] }) ∧
    (∀ e1 e2 e3, operation 1 = some e1 → operation 2 = some e2 → operation 3 = some e3 →
      RetryWithBackoff operation DefaultRetryConfig =
        { result := .error ("operation failed after 3 attempts: " ++ e3),
          attemptsUsed := 3, sleeps := [1000000000, 2000000000] }) ∧
    (∀ e1, operation 1 = some e1 → IsRetryableError e1 = false →
      2 ≤ (RetryWithBackoff operation DefaultRetryConfig).attemptsUsed) := by
  have hR : RetryWithBackoff operation DefaultRetryConfig =
      retryGo operation 3 [1, 2, 3] 1000000000 [] "<nil>" := rfl
  refine ⟨?_, ?_, ?_, ?_, ?_, ?_⟩
  · rw [hR]
    rcases h1 : operation 1 with _ | e1
    · simp [retryGo, h1]
    · rcases h2 : operation 2 with _ | e2
      · simp [retryGo, h1, h2]
      · rcases h3 : operation 3 with _ | e3 <;> simp [retryGo, h1, h2, h3]
  · intro h1
    rw [hR]; simp [retryGo, h1]
  · intro e1 h1 h2
    rw [hR]; simp [retryGo, h1, h2]
  · intro e1 e2 h1 h2 h3
    rw [hR]; simp [retryGo, h1, h2, h3]
  · intro e1 e2 e3 h1 h2 h3
    rw [hR]; simp [retryGo, h1, h2, h3]
    rfl
  · intro e1 h1 _
    rw [hR]
    rcases h2 : operation 2 with _ | e2
    · simp [retryGo, h1, h2]
    · rcases h3 : operation 3 with _ | e3 <;> simp [retryGo, h1, h2, h3]

/-- Witness for C8: a first-attempt success uses exactly one attempt and
no sleeps. -/
theorem retry_backoff_behaviour_witness :
    RetryWithBackoff (fun _ => none) DefaultRetryConfig =
      { result := .ok (), attemptsUsed := 1, sleeps := [] } :=
  (retry_backoff_behaviour (fun _ => none)).2.1 rfl

/-! ## C1 — authorisation scope confinement -/

theorem buildBaseQuery_wheres (fields : List String) (timezone panFormat : String) :
    (buildBaseQuery fields timezone panFormat).wheres = [] := by
  unfold buildBaseQuery
  split <;> rfl

/-- C1.  Every query composed by the list, single-record and summary
operations carries the scoping predicate `m.merchant_id = M OR
m.provisioner_id = M` (it is the first chained `WHERE`), so every row
satisfying the composed query belongs to `M`'s scope. -/
theorem scope_confinement (merchantID transactionID : String)
    (filter : Option TransactionFilter) (fields : List String) (sort : List SortParams)
    (page limit : Int) (timezone panFormat : String) (r : JoinedRow)
    (h : rowMatches r (GetTransactionsQuery merchantID filter fields sort page limit
           timezone panFormat) = true ∨
         rowMatches r (GetTransactionByIDQuery merchantID transactionID fields
           timezone panFormat) = true ∨
         rowMatches r (GetMerchantSummaryQuery merchantID filter) = true) :
    r.merchantId = some merchantID ∨ r.provisionerId = some merchantID := by
  have key : ∀ q : ComposedQuery,
      q.wheres.head? = some (Pred.scopeMerchant merchantID) → rowMatches r q = true →
      r.merchantId = some merchantID ∨ r.provisionerId = some merchantID := by
    intro q hw hm
    unfold rowMatches at hm
    cases hq : q.wheres with
    | nil => rw [hq] at hw; simp at hw
    | cons p rest =>
      rw [hq] at hw hm
      simp at hw
      subst hw
      simp [Pred.eval] at hm
      exact hm.1
  rcases h with h | h | h
  · refine key _ ?_ h
    cases filter <;>
      simp [GetTransactionsQuery, applySortingWithDistinct, applyFilters, addWhere,
        buildBaseQuery_wheres]
  · refine key _ ?_ h
    simp [GetTransactionByIDQuery, addWhere, buildBaseQuery_wheres]
  · refine key _ ?_ h
    cases filter <;> simp [GetMerchantSummaryQuery, applyFilters, addWhere]

/-- Witness for C1: a concrete row matching a concrete list query is in
scope. -/
theorem scope_confinement_witness :
    witnessRow.merchantId = some "M1" ∨ witnessRow.provisionerId = some "M1" :=
  scope_confinement "M1" "t1" none [] [] 1 100 "UTC" "bin_id_and_pan_id" witnessRow
    (Or.inl (by decide))

/-! ## C9 — summary law -/

/-- C9.  For every merchant summary: successful + failed = total, where
successful counts exactly the rows with response code `00` or `10`;
average = total_amount / total and success_rate = 100 · successful /
total when total > 0, and both are 0 when total = 0. -/
theorem summary_law (merchantID merchantName : String) (rows : List SummaryRow) :
    (GetMerchantSummaryResult merchantID merchantName rows).successfulTransactions +
        (GetMerchantSummaryResult merchantID merchantName rows).failedTransactions =
      (GetMerchantSummaryResult merchantID merchantName rows).totalTransactions ∧
    (GetMerchantSummaryResult merchantID merchantName rows).successfulTransactions =
      ((rows.filter
          (fun rw => decide (rw.resultCode = some "00" ∨ rw.resultCode = some "10"))).length
        : Int) ∧
    (0 < (GetMerchantSummaryResult merchantID merchantName rows).totalTransactions →
      (GetMerchantSummaryResult merchantID merchantName rows).averageAmount =
        ((GetMerchantSummaryResult merchantID merchantName rows).totalAmount : ℚ) /
          ((GetMerchantSummaryResult merchantID merchantName rows).totalTransactions : ℚ) ∧
      (GetMerchantSummaryResult merchantID merchantName rows).successRate =
        100 * ((GetMerchantSummaryResult merchantID merchantName
            rows).successfulTransactions : ℚ) /
          ((GetMerchantSummaryResult merchantID merchantName rows).totalTransactions : ℚ)) ∧
    ((GetMerchantSummaryResult merchantID merchantName rows).totalTransactions = 0 →
      (GetMerchantSummaryResult merchantID merchantName rows).averageAmount = 0 ∧
      (GetMerchantSummaryResult merchantID merchantName rows).successRate = 0) := by
  have hfilter : rows.filter (fun rw => isSuccessfulCode rw.resultCode) =
      rows.filter
        (fun rw => decide (rw.resultCode = some "00" ∨ rw.resultCode = some "10")) := by
    apply List.filter_congr
    intro rw _
    apply Bool.eq_iff_iff.mpr
    simp [isSuccessfulCode]
  have htot : (GetMerchantSummaryResult merchantID merchantName rows).totalTransactions =
      summaryTotalTransactions rows := by
    unfold GetMerchantSummaryResult
    dsimp only
    split <;> rfl
  have hsucc : (GetMerchantSummaryResult merchantID merchantName
      rows).successfulTransactions = summarySuccessfulTransactions rows := by
    unfold GetMerchantSummaryResult
    dsimp only
    split <;> rfl
  have hfail : (GetMerchantSummaryResult merchantID merchantName rows).failedTransactions =
      summaryTotalTransactions rows - summarySuccessfulTransactions rows := by
    unfold GetMerchantSummaryResult
    dsimp only
    split <;> rfl
  have hamt : (GetMerchantSummaryResult merchantID merchantName rows).totalAmount =
      summaryTotalAmount rows := by
    unfold GetMerchantSummaryResult
    dsimp only
    split <;> rfl
  refine ⟨?_, ?_, ?_, ?_⟩
  · rw [hsucc, hfail, htot]
    omega
  · rw [hsucc]
    unfold summarySuccessfulTransactions
    rw [hfilter]
  · intro hpos
    rw [htot] at hpos
    have havg : (GetMerchantSummaryResult merchantID merchantName rows).averageAmount =
        (summaryTotalAmount rows : ℚ) / (summaryTotalTransactions rows : ℚ) := by
      simp [GetMerchantSummaryResult, hpos]
    have hrate : (GetMerchantSummaryResult merchantID merchantName rows).successRate =
        ((summarySuccessfulTransactions rows : ℚ) /
          (summaryTotalTransactions rows : ℚ)) * 100 := by
      simp [GetMerchantSummaryResult, hpos]
    constructor
    · rw [havg, hamt, htot]
    · rw [hrate, hsucc, htot]
      ring
  · intro h0
    rw [htot] at h0
    have hneg : ¬ (0 : Int) < summaryTotalTransactions rows := by omega
    constructor <;> simp [GetMerchantSummaryResult, hneg]

/-- Witness for C9 at concrete rows (2 of 3 successful). -/
theorem summary_law_witness :
    (GetMerchantSummaryResult "M1" "Shop" witnessRows).successfulTransactions +
        (GetMerchantSummaryResult "M1" "Shop" witnessRows).failedTransactions =
      (GetMerchantSummaryResult "M1" "Shop" witnessRows).totalTransactions ∧
    (GetMerchantSummaryResult "M1" "Shop" witnessRows).averageAmount =
      ((GetMerchantSummaryResult "M1" "Shop" witnessRows).totalAmount : ℚ) /
        ((GetMerchantSummaryResult "M1" "Shop" witnessRows).totalTransactions : ℚ) :=
  ⟨(summary_law "M1" "Shop" witnessRows).1,
   ((summary_law "M1" "Shop" witnessRows).2.2.1 (by decide)).1⟩

end Aken
